import Mathlib

/-!
Shallow embedding of the 3D composition and export engine of the
clicker-designer repository (src/src/lib/Scene.svelte, src/lib/keycapPositions.js
and the caller in the main component).

Geometry is modelled by axis-aligned bounding boxes over exact rationals.
The three.js mesh transform (world = translation ∘ rotation ∘ scale) is
embedded by its exact action on bounding boxes: the rotations used by the
program are quarter- and half-turns about coordinate axes, which map boxes
to boxes exactly.  `Math.tan(halfFovRad)` is kept as an explicit rational
parameter `tanHalfFov` (the value of the tangent), so the framing formula is
embedded exactly while staying computable.
-/

namespace Clicker

/-- A 3D vector with rational coordinates (scene units = mm). -/
structure Vec3 where
  x : ℚ
  y : ℚ
  z : ℚ
deriving DecidableEq, Repr

/-- An axis-aligned bounding box (three.js `Box3`, assumed non-empty). -/
structure BBox where
  minX : ℚ
  maxX : ℚ
  minY : ℚ
  maxY : ℚ
  minZ : ℚ
  maxZ : ℚ
deriving DecidableEq, Repr

namespace BBox

def sizeX (b : BBox) : ℚ := b.maxX - b.minX
def sizeY (b : BBox) : ℚ := b.maxY - b.minY
def sizeZ (b : BBox) : ℚ := b.maxZ - b.minZ

/-- Embeds `Box3.getCenter`. -/
def center (b : BBox) : Vec3 := ⟨(b.minX + b.maxX) / 2, (b.minY + b.maxY) / 2, (b.minZ + b.maxZ) / 2⟩

/-- Embeds `BufferGeometry.translate` acting on the bounding box. -/
def translate (b : BBox) (v : Vec3) : BBox :=
  ⟨b.minX + v.x, b.maxX + v.x, b.minY + v.y, b.maxY + v.y, b.minZ + v.z, b.maxZ + v.z⟩

/-- Embeds `BufferGeometry.scale` / `Mesh.scale` acting on the bounding box;
handles negative scale factors exactly. -/
def scale (b : BBox) (sx sy sz : ℚ) : BBox :=
  ⟨min (sx * b.minX) (sx * b.maxX), max (sx * b.minX) (sx * b.maxX),
   min (sy * b.minY) (sy * b.maxY), max (sy * b.minY) (sy * b.maxY),
   min (sz * b.minZ) (sz * b.maxZ), max (sz * b.minZ) (sz * b.maxZ)⟩

/-- Rotation by +90° about X, `(x, y, z) ↦ (x, -z, y)`, on the box. -/
def rotX90 (b : BBox) : BBox :=
  ⟨b.minX, b.maxX, -b.maxZ, -b.minZ, b.minY, b.maxY⟩

/-- Rotation by -90° about X, `(x, y, z) ↦ (x, z, -y)`, on the box. -/
def rotXneg90 (b : BBox) : BBox :=
  ⟨b.minX, b.maxX, b.minZ, b.maxZ, -b.maxY, -b.minY⟩

/-- Recenter a geometry at its bounding-box centroid:
`geom.translate(-center.x, -center.y, -center.z)`. -/
def recenter (b : BBox) : BBox :=
  b.translate ⟨-(b.center).x, -(b.center).y, -(b.center).z⟩

/-- Embeds `Box3.union`. -/
def union (a b : BBox) : BBox :=
  ⟨min a.minX b.minX, max a.maxX b.maxX,
   min a.minY b.minY, max a.maxY b.maxY,
   min a.minZ b.minZ, max a.maxZ b.maxZ⟩

/-- Largest of the three box dimensions (`Math.max(size.x, size.y, size.z)`). -/
def maxDim (b : BBox) : ℚ := max (max b.sizeX b.sizeY) b.sizeZ

/-- Well-formed box: min ≤ max on every axis (every real `Box3` computed
from a non-empty geometry satisfies this). -/
def Wf (b : BBox) : Prop :=
  b.minX ≤ b.maxX ∧ b.minY ≤ b.maxY ∧ b.minZ ≤ b.maxZ

instance (b : BBox) : Decidable b.Wf := by unfold Wf; infer_instance

end BBox

/-! ## Constants of Scene.svelte -/

/-- Scene units = mm (`FILE_TO_MM`). -/
def FILE_TO_MM : ℚ := 1

/-- Extrusion depth in mm for letter and logo (`LEGEND_DEPTH_MM = 1.2`). -/
def LEGEND_DEPTH_MM : ℚ := 6 / 5

/-- Extrusion depth for SVG geometry before normalization (`SVG_EXTRUDE_DEPTH = 2`). -/
def SVG_EXTRUDE_DEPTH : ℚ := 2

/-- Max size of a mesh bbox to include in snapshot framing (`MAX_MESH_SIZE = 150`). -/
def MAX_MESH_SIZE : ℚ := 150

/-! ## Default keycap position table (src/lib/keycapPositions.js) -/

/-- Embeds `KEYCAP_POSITIONS`: default keycap positions per key count (1–7),
each entry `[x, y, z]` in mm. -/
def KEYCAP_POSITIONS : List (List Vec3) :=
  [ [⟨9/2, 0, 0⟩],
    [⟨-13/2, 0, 0⟩, ⟨31/2, 0, 0⟩],
    [⟨-177/10, 0, 0⟩, ⟨9/2, 0, 0⟩, ⟨267/10, 0, 0⟩],
    [⟨-144/5, 0, 0⟩, ⟨-33/5, 0, 0⟩, ⟨78/5, 0, 0⟩, ⟨189/5, 0, 0⟩],
    [⟨-399/10, 0, 0⟩, ⟨-177/10, 0, 0⟩, ⟨9/2, 0, 0⟩, ⟨267/10, 0, 0⟩, ⟨244/5, 0, 0⟩],
    [⟨-51, 0, 0⟩, ⟨-144/5, 0, 0⟩, ⟨-67/10, 0, 0⟩, ⟨31/2, 0, 0⟩, ⟨377/10, 0, 0⟩, ⟨60, 0, 0⟩],
    [⟨-62, 0, 0⟩, ⟨-40, 0, 0⟩, ⟨-89/5, 0, 0⟩, ⟨9/2, 0, 0⟩, ⟨267/10, 0, 0⟩, ⟨49, 0, 0⟩, ⟨71, 0, 0⟩] ]

/-! ## Key-count clamping and geometry selection -/

/-- Embeds `keyIndex = Math.min(7, Math.max(1, numberOfKeys)) - 1`. -/
def keyIndex (numberOfKeys : ℤ) : ℤ := min 7 (max 1 numberOfKeys) - 1

/-- The clamped key count `min(7, max(1, numberOfKeys))`. -/
def clampedKeyCount (numberOfKeys : ℤ) : ℤ := min 7 (max 1 numberOfKeys)

/-- Embeds `CLICKER_URLS`: the seven body-mesh assets, one per key count,
modelled by their file names. -/
def CLICKER_URLS : List String :=
  ["clicker_1.stl", "clicker_2.stl", "clicker_3.stl", "clicker_4.stl",
   "clicker_5.stl", "clicker_6.stl", "clicker_7.stl"]

/-- Embeds `currentGeometryStore = geometryStores[keyIndex]`: the selected body mesh. -/
def currentGeometryUrl (numberOfKeys : ℤ) : Option String :=
  CLICKER_URLS.get? (keyIndex numberOfKeys).toNat

/-- Embeds `getDefaultPositions` from the main component:
`KEYCAP_POSITIONS[Math.min(7, Math.max(1, n)) - 1] ?? []`. -/
def getDefaultPositions (n : ℤ) : List Vec3 :=
  KEYCAP_POSITIONS.getD (min 7 (max 1 n) - 1).toNat []

/-- Embeds `keycapPositions`: the caller-supplied override when non-empty, else the
default table entry for the clamped key count
(`keycapPositionsProp?.length ? keycapPositionsProp : (KEYCAP_POSITIONS[keyIndex] ?? [])`). -/
def selectedKeycapPositions (prop : Option (List Vec3)) (numberOfKeys : ℤ) : List Vec3 :=
  match prop with
  | some l => if l.length ≠ 0 then l else KEYCAP_POSITIONS.getD (keyIndex numberOfKeys).toNat []
  | none => KEYCAP_POSITIONS.getD (keyIndex numberOfKeys).toNat []

/-! ## Layout (Scene.svelte derived values)

The body, keycap and border meshes are placed with `rotation.x = -π/2` and
uniform scale `FILE_TO_MM`; the geometries' own bounding boxes are the inputs. -/

/-- Embeds `meshPosition`: body centered in XZ, resting on the grid:
`[-center.x, -box.min.z, center.y]`. -/
def meshPositionOf (clickerBox : BBox) : Vec3 :=
  ⟨-(clickerBox.center).x, -clickerBox.minZ, (clickerBox.center).y⟩

/-- Embeds `clickerTopY = meshPosition[1] + box.max.z` (body top in world Y). -/
def clickerTopYOf (clickerBox : BBox) : ℚ :=
  (meshPositionOf clickerBox).y + clickerBox.maxZ

/-- Embeds `keycapOffset`: keycap bbox center, minZ, maxZ. -/
structure KeycapOffset where
  center : Vec3
  minZ : ℚ
  maxZ : ℚ
deriving DecidableEq, Repr

def keycapOffsetOf (keycapBox : BBox) : KeycapOffset :=
  ⟨keycapBox.center, keycapBox.minZ, keycapBox.maxZ⟩

/-- Embeds `keycapHeight = keycapOffset.maxZ - keycapOffset.minZ`. -/
def keycapHeightOf (keycapBox : BBox) : ℚ :=
  (keycapOffsetOf keycapBox).maxZ - (keycapOffsetOf keycapBox).minZ

/-- One keycap mesh position:
`[x - offset.center.x, clickerTopY + y - offset.minZ, z + offset.center.y]`. -/
def keycapMeshPositionOf (clickerBox keycapBox : BBox) (p : Vec3) : Vec3 :=
  ⟨p.x - (keycapOffsetOf keycapBox).center.x,
   clickerTopYOf clickerBox + p.y - (keycapOffsetOf keycapBox).minZ,
   p.z + (keycapOffsetOf keycapBox).center.y⟩

/-- Embeds `keycapMeshPositions`: one mesh position per entry of `keycapPositions`. -/
def keycapMeshPositionsOf (clickerBox keycapBox : BBox) (positions : List Vec3) : List Vec3 :=
  positions.map (keycapMeshPositionOf clickerBox keycapBox)

/-- Embeds the closures' variable `keycapBottomY = topY + y - offset.minZ`
(the border / label / SVG-slot / export closures all compute it this way);
this is the keycap mesh's position Y, which coincides with the keycap's
physical lowest world Y only when the keycap geometry's minZ is 0. -/
def keycapBottomYOf (clickerBox keycapBox : BBox) (p : Vec3) : ℚ :=
  clickerTopYOf clickerBox + p.y - (keycapOffsetOf keycapBox).minZ

/-- Embeds the closures' variable
`keycapTopY = keycapBottomY + (offset.maxZ - offset.minZ)`: the reference
plane used for the border, label and SVG-slot positions. It sits
`keycapBox.minZ` below the keycap's physical world top. -/
def keycapTopYOf (clickerBox keycapBox : BBox) (p : Vec3) : ℚ :=
  keycapBottomYOf clickerBox keycapBox p + ((keycapOffsetOf keycapBox).maxZ - (keycapOffsetOf keycapBox).minZ)

/-- Embeds `borderOffset`: border bbox center and minZ. -/
structure BorderOffset where
  center : Vec3
  minZ : ℚ
deriving DecidableEq, Repr

def borderOffsetOf (borderBox : BBox) : BorderOffset :=
  ⟨borderBox.center, borderBox.minZ⟩

/-- One border mesh position (the closure inside `borderMeshPositions`):
x, z centered like the keycap, Y so the border's lowest point is at keycap top. -/
def borderMeshPositionOf (clickerBox keycapBox borderBox : BBox) (p : Vec3) : Vec3 :=
  ⟨p.x - (borderOffsetOf borderBox).center.x,
   keycapTopYOf clickerBox keycapBox p - (borderOffsetOf borderBox).minZ,
   p.z + (borderOffsetOf borderBox).center.y⟩

/-- Embeds `borderMeshPositions`: `if (!positions?.length) return []` then one per key. -/
def borderMeshPositionsOf (clickerBox keycapBox borderBox : BBox)
    (positions : List Vec3) : List Vec3 :=
  if positions.length = 0 then []
  else positions.map (borderMeshPositionOf clickerBox keycapBox borderBox)

/-- World bounding box of a placed mesh: `translation ∘ rotation ∘ scale`
applied to the geometry box (three.js `Mesh` transform order). -/
def meshWorldBox (geomBox : BBox) (sx sy sz : ℚ) (rot : BBox → BBox) (pos : Vec3) : BBox :=
  ((geomBox.scale sx sy sz) |> rot).translate pos

/-- World box of the border mesh for key `p`
(scale `FILE_TO_MM`, `rotation.x = -π/2`). -/
def borderWorldBox (clickerBox keycapBox borderBox : BBox) (p : Vec3) : BBox :=
  meshWorldBox borderBox FILE_TO_MM FILE_TO_MM FILE_TO_MM BBox.rotXneg90
    (borderMeshPositionOf clickerBox keycapBox borderBox p)

/-- World box of the keycap mesh for key `p`. -/
def keycapWorldBox (clickerBox keycapBox : BBox) (p : Vec3) : BBox :=
  meshWorldBox keycapBox FILE_TO_MM FILE_TO_MM FILE_TO_MM BBox.rotXneg90
    (keycapMeshPositionOf clickerBox keycapBox p)

/-! ## Text legend (keycapLabels) -/

/-- Bounding box of `TextGeometry` with `size: 1` and the given `depth`:
extrusion runs from z = 0 to z = depth; the in-plane extents are
glyph-dependent parameters. -/
def textGeometryBox (gMinX gMaxX gMinY gMaxY depth : ℚ) : BBox :=
  ⟨gMinX, gMaxX, gMinY, gMaxY, 0, depth⟩

/-- The label geometry as built in `keycapLabels`: `TextGeometry` with
`depth = LEGEND_DEPTH_MM / textSizeMm`, recentered at its bbox centroid. -/
def labelGeometryBox (gMinX gMaxX gMinY gMaxY textSizeMm : ℚ) : BBox :=
  (textGeometryBox gMinX gMaxX gMinY gMaxY (LEGEND_DEPTH_MM / textSizeMm)).recenter

/-- Label world position: `[x, keycapTopY, z]`. -/
def labelPositionOf (clickerBox keycapBox : BBox) (p : Vec3) : Vec3 :=
  ⟨p.x, keycapTopYOf clickerBox keycapBox p, p.z⟩

/-- World box of the displayed text-label mesh: scale
`[textSizeMm, -textSizeMm, textSizeMm] * FILE_TO_MM`, `rotation.x = +π/2`,
positioned at the label position. -/
def labelWorldBox (clickerBox keycapBox : BBox) (p : Vec3)
    (gMinX gMaxX gMinY gMaxY textSizeMm : ℚ) : BBox :=
  meshWorldBox (labelGeometryBox gMinX gMaxX gMinY gMaxY textSizeMm)
    (textSizeMm * FILE_TO_MM) (-(textSizeMm * FILE_TO_MM)) (textSizeMm * FILE_TO_MM)
    BBox.rotX90 (labelPositionOf clickerBox keycapBox p)

end Clicker


/-! ## Icon legend synthesis (svgGeometryByUrl effect in Scene.svelte) -/

namespace Clicker

/-- Bounding box of the merged `ExtrudeGeometry` built from the SVG shapes:
in-plane extents come from the outline, extrusion runs from z = 0 to
z = `SVG_EXTRUDE_DEPTH`. -/
def svgExtrudeBox (x0 x1 y0 y1 : ℚ) : BBox :=
  ⟨x0, x1, y0, y1, 0, SVG_EXTRUDE_DEPTH⟩

/-- The normalization applied to the merged SVG geometry: recenter at the bbox
centroid, uniformly scale by `1 / Math.max(size.x, size.y, size.z, 0.001)`,
then if the resulting z-size exceeds 0.001, rescale z to depth 1. -/
def svgNormalize (b : BBox) : BBox :=
  let c := b.recenter
  let maxDimension := max (max (max c.sizeX c.sizeY) c.sizeZ) (1/1000)
  let s := 1 / maxDimension
  let c2 := c.scale s s s
  if 1/1000 < c2.sizeZ then c2.scale 1 1 (1 / c2.sizeZ) else c2

/-- Larger in-plane (x, y) dimension of a legend bounding box. -/
def inPlaneMax (b : BBox) : ℚ := max b.sizeX b.sizeY

end Clicker

/-! ## Legend precedence and export naming (exportKeycapStl, keycapLabels,
keycapSvgSlots) -/

namespace Clicker

/-- JS whitespace for `String.prototype.trim`. -/
def isWhitespaceChar (c : Char) : Bool :=
  c = ' ' || c = '\t' || c = '\n' || c = '\r'

/-- Embeds `String.prototype.trim()`: strip leading and trailing whitespace
(structural implementation over the character list, so it evaluates in the
kernel). -/
def jsTrim (s : String) : String :=
  ⟨((s.data.dropWhile isWhitespaceChar).reverse.dropWhile isWhitespaceChar).reverse⟩

/-- Embeds `String.prototype.toUpperCase()` (ASCII). -/
def jsToUpper (s : String) : String :=
  ⟨s.data.map Char.toUpper⟩

/-- JS truthiness of an optional string: `undefined` and `""` are falsy. -/
def jsTruthyStr (s : Option String) : Bool :=
  match s with
  | none => false
  | some t => t ≠ ""

/-- Which legend a keycap ends up with. -/
inductive LegendKind where
  | icon
  | text
  | noLegend
deriving DecidableEq, Repr

/-- Legend branch taken by `exportKeycapStl` for one keycap:
`svgUrl && svgGeometryByUrl[svgUrl]` wins, else `letter && font`, else none.
`letter` and `svgUrl` are the trimmed raw values; `cached` is membership in
the `svgGeometryByUrl` cache; `fontLoaded` is whether the font resolved. -/
def exportLegendKind (letterRaw svgUrlRaw : Option String)
    (cached : String → Bool) (fontLoaded : Bool) : LegendKind :=
  let letter := letterRaw.map jsTrim
  let svgUrl := svgUrlRaw.map jsTrim
  if jsTruthyStr svgUrl && cached (svgUrl.getD "") then .icon
  else if jsTruthyStr letter && fontLoaded then .text
  else .noLegend

/-- Legend shown by the live display for one keycap: `keycapSvgSlots` creates a
slot iff the untrimmed url is assigned with non-blank trim, and the template
renders it iff the cache holds the *untrimmed* url; `keycapLabels` emits the
letter iff the untrimmed url is falsy, the trimmed letter is non-empty and the
font is loaded. -/
def displayLegendKind (letterRaw svgUrlRaw : Option String)
    (cached : String → Bool) (fontLoaded : Bool) : LegendKind :=
  if jsTruthyStr (svgUrlRaw.map jsTrim) && cached (svgUrlRaw.getD "") then .icon
  else if !(jsTruthyStr svgUrlRaw) && jsTruthyStr (letterRaw.map jsTrim) && fontLoaded then
    .text
  else .noLegend

/-- Whether a keycap carries a text legend in the sense of the spec's naming
rule: non-empty (trimmed) letter and no icon assigned. This is the source's
`letter && !svgUrl` condition. -/
def hasTextLegend (letterRaw svgUrlRaw : Option String) : Bool :=
  jsTruthyStr (letterRaw.map jsTrim) && !(jsTruthyStr (svgUrlRaw.map jsTrim))

/-- Output file name chosen by `exportKeycapStl` for keycap `i` (0-based):
`keycap-${i+1}-${letter.toUpperCase()}.stl` when `letter && !svgUrl`, else
`keycap-${i+1}.stl`. -/
def exportFileName (i : ℕ) (letterRaw svgUrlRaw : Option String) : String :=
  let letter := letterRaw.map jsTrim
  let svgUrl := svgUrlRaw.map jsTrim
  if jsTruthyStr letter && !(jsTruthyStr svgUrl) then
    "keycap-" ++ toString (i + 1) ++ "-" ++ jsToUpper (letter.getD "") ++ ".stl"
  else
    "keycap-" ++ toString (i + 1) ++ ".stl"

end Clicker

/-! ## Snapshot renderer (captureView, getModelBox, distanceToFit, takeSnapshot) -/

namespace Clicker

/-- Affine world matrix (`Object3D.matrixWorld`): linear part rows plus
translation, with rational entries. -/
structure Mat4 where
  m00 : ℚ
  m01 : ℚ
  m02 : ℚ
  m10 : ℚ
  m11 : ℚ
  m12 : ℚ
  m20 : ℚ
  m21 : ℚ
  m22 : ℚ
  tx : ℚ
  ty : ℚ
  tz : ℚ
deriving DecidableEq, Repr

def applyMat (m : Mat4) (v : Vec3) : Vec3 :=
  ⟨m.m00 * v.x + m.m01 * v.y + m.m02 * v.z + m.tx,
   m.m10 * v.x + m.m11 * v.y + m.m12 * v.z + m.ty,
   m.m20 * v.x + m.m21 * v.y + m.m22 * v.z + m.tz⟩

/-- Identity world matrix. -/
def idMat : Mat4 := ⟨1, 0, 0, 0, 1, 0, 0, 0, 1, 0, 0, 0⟩

/-- Degenerate box at a single point. -/
def BBox.ofPoint (v : Vec3) : BBox := ⟨v.x, v.x, v.y, v.y, v.z, v.z⟩

/-- Embeds `Box3.expandByPoint`. -/
def BBox.expandByPoint (b : BBox) (v : Vec3) : BBox :=
  b.union (BBox.ofPoint v)

/-- The eight corners of a box in `Box3.applyMatrix4` order. -/
def BBox.corners (b : BBox) : List Vec3 :=
  [⟨b.minX, b.minY, b.minZ⟩, ⟨b.minX, b.minY, b.maxZ⟩,
   ⟨b.minX, b.maxY, b.minZ⟩, ⟨b.minX, b.maxY, b.maxZ⟩,
   ⟨b.maxX, b.minY, b.minZ⟩, ⟨b.maxX, b.minY, b.maxZ⟩,
   ⟨b.maxX, b.maxY, b.minZ⟩, ⟨b.maxX, b.maxY, b.maxZ⟩]

/-- Embeds `Box3.applyMatrix4`: transform the eight corners and take their bounds. -/
def applyMatBBox (m : Mat4) (b : BBox) : BBox :=
  match (b.corners).map (applyMat m) with
  | [] => b
  | v :: vs => vs.foldl BBox.expandByPoint (BBox.ofPoint v)

/-- One mesh in the scene graph with its geometry bounding box and world
matrix. -/
structure MeshEntry where
  geomBox : BBox
  world : Mat4
deriving DecidableEq, Repr

/-- The traversal/union loop of `getModelBox`: skip meshes whose geometry box
has a dimension above `MAX_MESH_SIZE`, union the world boxes of the rest. -/
def modelBoxFold : List MeshEntry → Option BBox → Option BBox
  | [], acc => acc
  | m :: rest, acc =>
    if MAX_MESH_SIZE < m.geomBox.maxDim then modelBoxFold rest acc
    else
      match acc with
      | none => modelBoxFold rest (some (applyMatBBox m.world m.geomBox))
      | some b => modelBoxFold rest (some (b.union (applyMatBBox m.world m.geomBox)))

/-- Result of `getModelBox`. -/
structure ModelBox where
  center : Vec3
  size : Vec3
  maxDimension : ℚ
deriving DecidableEq, Repr

/-- Embeds `getModelBox`: union box of the included meshes; on an empty union,
center and size are zero (three.js empty-box behavior) and
`Math.max(...) || 80` makes the max dimension fall back to 80. -/
def getModelBox (meshes : List MeshEntry) : ModelBox :=
  match modelBoxFold meshes none with
  | none => ⟨⟨0, 0, 0⟩, ⟨0, 0, 0⟩, 80⟩
  | some b =>
    let md := max (max b.sizeX b.sizeY) b.sizeZ
    ⟨b.center, ⟨b.sizeX, b.sizeY, b.sizeZ⟩, if md = 0 then 80 else md⟩

/-- Embeds `distanceToFit(maxDim, fovDeg, margin = 1.4)`: the source computes
`halfFovRad = (fovDeg / 2) * (π / 180)` and divides by `Math.tan(halfFovRad)`;
the tangent's value is the explicit parameter `tanHalfFov` here. -/
def distanceToFit (maxDimension tanHalfFov margin : ℚ) : ℚ :=
  maxDimension / 2 / tanHalfFov * margin

/-- Renderer state touched by `captureView`. -/
structure RendererSt where
  clearColor : String
  clearAlpha : ℚ
  renderTarget : Option ℕ
deriving DecidableEq, Repr

/-- Embeds `SNAPSHOT_BG`: gray fallback background. -/
def SNAPSHOT_BG : String := "#d4d4d4"

/-- The pixel read-back of one offscreen render, abstracted by the camera
placement that produced it. -/
structure CapturedView where
  position : Vec3
  target : Vec3
deriving DecidableEq, Repr

/-- Embeds `captureView`: save clear color/alpha, redirect to a transient render
target, render and read pixels, then set the render target to `null` and
restore clear color/alpha. Returns the final renderer state and the pixels. -/
def captureView (r : RendererSt) (background : Option String)
    (position target : Vec3) : RendererSt × CapturedView :=
  let prevClearColor := r.clearColor
  let prevClearAlpha := r.clearAlpha
  let rWorking : RendererSt :=
    { clearColor := background.getD SNAPSHOT_BG, clearAlpha := 1, renderTarget := some 0 }
  let rAfterNull : RendererSt := { rWorking with renderTarget := none }
  let rFinal : RendererSt :=
    { rAfterNull with clearColor := prevClearColor, clearAlpha := prevClearAlpha }
  (rFinal, ⟨position, target⟩)

/-- Scene handle: model meshes plus the scene background color. -/
structure SceneSt where
  meshes : List MeshEntry
  background : Option String
deriving DecidableEq, Repr

/-- The threlte context at the moment of a snapshot request. -/
structure Ctx where
  renderer : Option RendererSt
  scene : Option SceneSt
  camera : Option Unit
deriving DecidableEq, Repr

/-- The produced composite snapshot file, abstracted by the two captures and
the framing used (the model treats the browser image loads as completing). -/
structure SnapshotFile where
  front : CapturedView
  top : CapturedView
  dist : ℚ
  center : Vec3
deriving DecidableEq, Repr

/-- Embeds `takeSnapshot`: no-op when renderer, scene or camera is missing; otherwise
frame via `getModelBox` and `distanceToFit`, capture front and top views and
trigger a composite file download. -/
def takeSnapshot (ctx : Ctx) (tanHalfFov : ℚ) : Option SnapshotFile × Ctx :=
  match ctx.renderer, ctx.scene, ctx.camera with
  | some r, some s, some _ =>
    let mb := getModelBox s.meshes
    let dist := distanceToFit mb.maxDimension tanHalfFov (7/5)
    let c := mb.center
    let frontStep := captureView r s.background ⟨c.x, c.y, c.z + dist⟩ c
    let topStep := captureView frontStep.1 s.background ⟨c.x, c.y + dist, c.z⟩ c
    (some ⟨frontStep.2, topStep.2, dist, c⟩, { ctx with renderer := some topStep.1 })
  | _, _, _ => (none, ctx)

/-! Spec-side framing definitions (written from the spec's words, for the
refinement statement of the auto-framing claim). -/

/-- Modelled from the spec: the meshes included in framing are exactly those
whose largest bounding-box dimension does not exceed the threshold. -/
def specIncludedMeshes (meshes : List MeshEntry) : List MeshEntry :=
  meshes.filter (fun m => m.geomBox.maxDim ≤ MAX_MESH_SIZE)

/-- Modelled from the spec: union bounding box of a mesh list (in world
coordinates), `none` when the list is empty. -/
def specUnionBox (meshes : List MeshEntry) : Option BBox :=
  meshes.foldl
    (fun acc m =>
      match acc with
      | none => some (applyMatBBox m.world m.geomBox)
      | some b => some (b.union (applyMatBBox m.world m.geomBox)))
    none

/-- Modelled from the spec: largest dimension of the union bounding box over
exactly the included meshes (0 when no mesh qualifies). -/
def specMaxDimension (meshes : List MeshEntry) : ℚ :=
  match specUnionBox (specIncludedMeshes meshes) with
  | none => 0
  | some b => b.maxDim

end Clicker

/-! ## Claim theorems -/

namespace Clicker

/-! Shared layout lemmas (not claim theorems). -/
theorem keycapWorldBox_minY (clickerBox keycapBox : BBox) (p : Vec3)
    (hk : keycapBox.minZ ≤ keycapBox.maxZ) :
    (keycapWorldBox clickerBox keycapBox p).minY = clickerTopYOf clickerBox + p.y := by
  simp [keycapWorldBox, meshWorldBox, BBox.translate, BBox.rotXneg90, BBox.scale,
    keycapMeshPositionOf, keycapOffsetOf, FILE_TO_MM, min_eq_left hk]

/-- The keycap's physical world top sits `keycapBox.minZ` above the closures'
`keycapTopY` reference plane. -/
theorem keycapWorldBox_maxY (clickerBox keycapBox : BBox) (p : Vec3)
    (hk : keycapBox.minZ ≤ keycapBox.maxZ) :
    (keycapWorldBox clickerBox keycapBox p).maxY
      = keycapTopYOf clickerBox keycapBox p + keycapBox.minZ := by
  simp [keycapWorldBox, meshWorldBox, BBox.translate, BBox.rotXneg90, BBox.scale,
    keycapMeshPositionOf, keycapOffsetOf, FILE_TO_MM, max_eq_right hk,
    keycapTopYOf, keycapBottomYOf]
  ring

theorem borderWorldBox_minY (clickerBox keycapBox borderBox : BBox) (p : Vec3)
    (hb : borderBox.minZ ≤ borderBox.maxZ) :
    (borderWorldBox clickerBox keycapBox borderBox p).minY
      = keycapTopYOf clickerBox keycapBox p := by
  simp [borderWorldBox, meshWorldBox, BBox.translate, BBox.rotXneg90, BBox.scale,
    borderMeshPositionOf, borderOffsetOf, FILE_TO_MM, min_eq_left hb]

/-- The displayed text legend's lowest world point sits half the legend depth
below the keycap top: the recentered glyph straddles its position plane. -/
theorem labelWorldBox_minY (clickerBox keycapBox : BBox) (p : Vec3)
    (gMinX gMaxX gMinY gMaxY textSizeMm : ℚ) (hs : 0 < textSizeMm) :
    (labelWorldBox clickerBox keycapBox p gMinX gMaxX gMinY gMaxY textSizeMm).minY
      = keycapTopYOf clickerBox keycapBox p - LEGEND_DEPTH_MM / 2 := by
  have hd : (0 : ℚ) < LEGEND_DEPTH_MM / textSizeMm := by
    have : (0 : ℚ) < LEGEND_DEPTH_MM := by norm_num [LEGEND_DEPTH_MM]
    positivity
  have hzmin : (labelGeometryBox gMinX gMaxX gMinY gMaxY textSizeMm).minZ
      = -(LEGEND_DEPTH_MM / textSizeMm / 2) := by
    simp only [labelGeometryBox, BBox.recenter, BBox.translate, BBox.center, textGeometryBox]
    ring
  have hzmax : (labelGeometryBox gMinX gMaxX gMinY gMaxY textSizeMm).maxZ
      = LEGEND_DEPTH_MM / textSizeMm / 2 := by
    simp only [labelGeometryBox, BBox.recenter, BBox.translate, BBox.center, textGeometryBox]
    ring
  have hle : textSizeMm * FILE_TO_MM * (labelGeometryBox gMinX gMaxX gMinY gMaxY textSizeMm).minZ
      ≤ textSizeMm * FILE_TO_MM * (labelGeometryBox gMinX gMaxX gMinY gMaxY textSizeMm).maxZ := by
    rw [hzmin, hzmax]
    simp [FILE_TO_MM]
    nlinarith
  simp only [labelWorldBox, meshWorldBox, BBox.translate, BBox.rotX90, BBox.scale,
    labelPositionOf, FILE_TO_MM, mul_one]
  rw [max_eq_right (by simpa [FILE_TO_MM] using hle), hzmax]
  field_simp
  ring

/-- C10: for every `numberOfKeys` value, including values below 1 or above 7,
the engine indexes the seven-entry body-mesh list at the clamped count
`min(7, max(1, numberOfKeys))` minus one, so the index is always in range, the
selected body mesh is the one for the clamped count, and the default-position
lookup yields as many entries as the clamped count. -/
theorem key_count_clamping (n : ℤ) :
    0 ≤ keyIndex n
  ∧ (keyIndex n).toNat < CLICKER_URLS.length
  ∧ currentGeometryUrl n = some ("clicker_" ++ toString (clampedKeyCount n) ++ ".stl")
  ∧ (getDefaultPositions n).length = (clampedKeyCount n).toNat := by
  have hc : clampedKeyCount n = 1 ∨ clampedKeyCount n = 2 ∨ clampedKeyCount n = 3 ∨
      clampedKeyCount n = 4 ∨ clampedKeyCount n = 5 ∨ clampedKeyCount n = 6 ∨
      clampedKeyCount n = 7 := by
    unfold clampedKeyCount
    omega
  have hk : keyIndex n = clampedKeyCount n - 1 := rfl
  have hg : getDefaultPositions n = KEYCAP_POSITIONS.getD (clampedKeyCount n - 1).toNat [] := rfl
  have hcur : currentGeometryUrl n = CLICKER_URLS.get? (clampedKeyCount n - 1).toNat := by
    unfold currentGeometryUrl
    rw [hk]
  rcases hc with h | h | h | h | h | h | h <;> rw [hcur, hg, hk, h] <;> decide

/-- C6: whenever the rendering context, scene, or camera is unavailable when a
snapshot is requested, `takeSnapshot` returns without producing any output and
leaves the context (renderer and scene state) unmodified. -/
theorem snapshot_not_ready_noop (ctx : Ctx) (tanHalfFov : ℚ)
    (h : ctx.renderer = none ∨ ctx.scene = none ∨ ctx.camera = none) :
    takeSnapshot ctx tanHalfFov = (none, ctx) := by
  obtain ⟨r, s, c⟩ := ctx
  rcases r with _ | r <;> rcases s with _ | s <;> rcases c with _ | c <;>
    simp_all [takeSnapshot]

/-- Witness for C6: a context with no renderer yields no output and an
unchanged context. -/
theorem snapshot_not_ready_noop_witness :
    takeSnapshot ⟨none, some ⟨[], none⟩, some ()⟩ 1 = (none, ⟨none, some ⟨[], none⟩, some ()⟩) :=
  snapshot_not_ready_noop ⟨none, some ⟨[], none⟩, some ()⟩ 1 (Or.inl rfl)

/-- C9 counterexample: `captureView` does not restore the active render
target — it unconditionally sets it to `null`; starting from a renderer whose
render target is non-null, the post-call target differs from the pre-call. -/
theorem captureView_target_not_restored :
    (captureView ⟨"#ffffff", 1/2, some 3⟩ none ⟨0, 0, 0⟩ ⟨0, 0, 0⟩).1.renderTarget
      ≠ (⟨"#ffffff", 1/2, some 3⟩ : RendererSt).renderTarget := by
  decide

/-- C9 amended: after `captureView` returns, the clear color and clear alpha
equal their pre-call values (they are saved and restored), while the active
render target is unconditionally set to `null` (the default framebuffer), so
it equals its pre-call value only when that value was already `null`. -/
theorem captureView_frame_effect (r : RendererSt) (background : Option String)
    (position target : Vec3) :
    (captureView r background position target).1.clearColor = r.clearColor
  ∧ (captureView r background position target).1.clearAlpha = r.clearAlpha
  ∧ (captureView r background position target).1.renderTarget = none :=
  ⟨rfl, rfl, rfl⟩

/-- C5: the export file name always encodes the 1-based index `i+1`; exactly
when the keycap carries a text legend (non-empty trimmed letter, no icon
assigned) the name additionally carries the uppercased legend text, and
otherwise (icon legend or no legend) it is the index-only form. -/
theorem export_file_naming (i : ℕ) (letterRaw svgUrlRaw : Option String) :
    (hasTextLegend letterRaw svgUrlRaw = true →
      exportFileName i letterRaw svgUrlRaw
        = "keycap-" ++ toString (i + 1) ++ "-"
            ++ jsToUpper ((letterRaw.map jsTrim).getD "") ++ ".stl")
  ∧ (hasTextLegend letterRaw svgUrlRaw = false →
      exportFileName i letterRaw svgUrlRaw = "keycap-" ++ toString (i + 1) ++ ".stl") := by
  unfold exportFileName hasTextLegend
  constructor <;> intro h <;> simp_all

/-- Witness for C5: keycap 0 with letter "a" and no icon exports as
`keycap-1-A.stl`. -/
theorem export_file_naming_witness :
    exportFileName 0 (some "a") none = "keycap-1-A.stl" := by
  rw [(export_file_naming 0 (some "a") none).1 (by decide)]
  decide

/-- C7 counterexample: with the rendering context ready but no mesh loaded,
`takeSnapshot` still produces an output file (the claim says it must not). -/
theorem snapshot_empty_scene_produces_file :
    ((takeSnapshot ⟨some ⟨"#ffffff", 1, none⟩, some ⟨[], none⟩, some ()⟩ 1).1) ≠ none := by
  decide

/-- C7 amended: when the context is unavailable the snapshot is a no-op
(see `snapshot_not_ready_noop`), but when the context exists and the scene
holds no model meshes, the framing maximum dimension falls back to the
constant 80 and the capture-and-download pipeline still runs, producing a
file framed at `distanceToFit 80`. -/
theorem snapshot_empty_scene_amended (r : RendererSt) (background : Option String)
    (tanHalfFov : ℚ) :
    ((takeSnapshot ⟨some r, some ⟨[], background⟩, some ()⟩ tanHalfFov).1).isSome = true
  ∧ ((takeSnapshot ⟨some r, some ⟨[], background⟩, some ()⟩ tanHalfFov).1).map
      SnapshotFile.dist = some (distanceToFit 80 tanHalfFov (7/5)) :=
  ⟨rfl, rfl⟩

/-- C3 counterexample: a key with icon `heart.svg` assigned and letter "A",
in a cache state where the icon's geometry has not been synthesized yet
(the cache misses) and the font is loaded: the export takes the letter branch
rather than the icon, and the display shows no legend at all — the icon does
not win in every cache state. -/
theorem icon_precedence_counterexample :
    exportLegendKind (some "A") (some "heart.svg") (fun _ => false) true = LegendKind.text
  ∧ displayLegendKind (some "A") (some "heart.svg") (fun _ => false) true
      = LegendKind.noLegend := by
  constructor <;> decide

/-- C3 amended: for a key with both a non-blank icon url and a non-blank
letter, the icon wins exactly when its geometry is present in the cache: then
the export contains the icon and the display shows the icon.  When the icon's
geometry is absent (synthesis pending or failed), the display still never
shows the letter, but the export falls back to the letter branch whenever the
font is loaded. -/
theorem icon_precedence_amended (letterRaw svgUrlRaw : Option String)
    (cached : String → Bool) (fontLoaded : Bool)
    (hl : jsTruthyStr (letterRaw.map jsTrim) = true)
    (hu : jsTruthyStr (svgUrlRaw.map jsTrim) = true) :
    (cached ((svgUrlRaw.map jsTrim).getD "") = true →
      exportLegendKind letterRaw svgUrlRaw cached fontLoaded = LegendKind.icon)
  ∧ (cached (svgUrlRaw.getD "") = true →
      displayLegendKind letterRaw svgUrlRaw cached fontLoaded = LegendKind.icon)
  ∧ displayLegendKind letterRaw svgUrlRaw cached fontLoaded ≠ LegendKind.text
  ∧ (cached ((svgUrlRaw.map jsTrim).getD "") = false → fontLoaded = true →
      exportLegendKind letterRaw svgUrlRaw cached fontLoaded = LegendKind.text) := by
  refine ⟨?_, ?_, ?_, ?_⟩
  · intro hc
    unfold exportLegendKind
    simp [hu, hc]
  · intro hc
    unfold displayLegendKind
    simp [hu, hc]
  · have hu2 : jsTruthyStr svgUrlRaw = true := by
      rcases svgUrlRaw with _ | u
      · simp [jsTruthyStr] at hu
      · have hu' : jsTrim u ≠ "" := by simpa [jsTruthyStr] using hu
        have hne : u ≠ "" := by
          intro he
          subst he
          exact hu' rfl
        simpa [jsTruthyStr] using hne
    unfold displayLegendKind
    simp only [hu2, Bool.not_true, Bool.false_and, Bool.and_false]
    split <;> simp
  · intro hc hf
    unfold exportLegendKind
    simp [hu, hc, hl, hf]

/-- Witness for C3's amended theorem: with the heart icon synthesized and in
the cache, both export and display pick the icon over the letter. -/
theorem icon_precedence_amended_witness :
    exportLegendKind (some "A") (some "heart.svg") (fun s => s == "heart.svg") true
      = LegendKind.icon
  ∧ displayLegendKind (some "A") (some "heart.svg") (fun s => s == "heart.svg") true
      = LegendKind.icon :=
  ⟨(icon_precedence_amended (some "A") (some "heart.svg") (fun s => s == "heart.svg") true
      (by decide) (by decide)).1 (by decide),
   (icon_precedence_amended (some "A") (some "heart.svg") (fun s => s == "heart.svg") true
      (by decide) (by decide)).2.1 (by decide)⟩

/-- C4 counterexample: with `numberOfKeys = 3` but a caller-supplied override
positions list of length 1, the layout produces 1 keycap placement, not 3 —
the placement count follows the override list, not the configured key count. -/
theorem placement_cardinality_counterexample :
    (keycapMeshPositionsOf ⟨-10, 10, -10, 10, 0, 10⟩ ⟨-5, 5, -5, 5, 0, 5⟩
      (selectedKeycapPositions (some [⟨0, 0, 0⟩]) 3)).length ≠ 3 := by
  decide

/-- The default table entry for the clamped key count has exactly that many
positions (shared helper). -/
theorem default_positions_length (n : ℤ) :
    (KEYCAP_POSITIONS.getD (keyIndex n).toNat []).length = (clampedKeyCount n).toNat := by
  have hc : clampedKeyCount n = 1 ∨ clampedKeyCount n = 2 ∨ clampedKeyCount n = 3 ∨
      clampedKeyCount n = 4 ∨ clampedKeyCount n = 5 ∨ clampedKeyCount n = 6 ∨
      clampedKeyCount n = 7 := by
    unfold clampedKeyCount
    omega
  have hk : keyIndex n = clampedKeyCount n - 1 := rfl
  rcases hc with h | h | h | h | h | h | h <;> rw [hk, h] <;> decide

/-- C4 amended: the built-in table supplies exactly N entries with zero
vertical offset for every key count N from 1 to 7, and the layout produces
exactly the clamped key count of placements whenever the caller supplies no
override; but when a non-empty override list is supplied, the placement count
equals the override's length, whatever the configured key count. -/
theorem placement_cardinality_amended (n : ℤ) (prop : Option (List Vec3))
    (clickerBox keycapBox : BBox) :
    (∀ i : Fin 7, (KEYCAP_POSITIONS.getD i.1 []).length = i.1 + 1
        ∧ ∀ p ∈ KEYCAP_POSITIONS.getD i.1 [], p.y = 0)
  ∧ (keycapMeshPositionsOf clickerBox keycapBox (selectedKeycapPositions prop n)).length
      = (match prop with
         | some l => if l.length = 0 then (clampedKeyCount n).toNat else l.length
         | none => (clampedKeyCount n).toNat) := by
  constructor
  · decide
  · unfold keycapMeshPositionsOf selectedKeycapPositions
    cases prop with
    | none => simpa using default_positions_length n
    | some l =>
      by_cases hl : l.length = 0
      · simpa [hl] using default_positions_length n
      · simp [hl]

/-- Witness for C4's amended theorem: with no override and key count 3, the
layout produces exactly 3 placements. -/
theorem placement_cardinality_amended_witness :
    (keycapMeshPositionsOf ⟨-10, 10, -10, 10, 0, 10⟩ ⟨-5, 5, -5, 5, 0, 5⟩
      (selectedKeycapPositions none 3)).length = (clampedKeyCount 3).toNat :=
  (placement_cardinality_amended 3 none ⟨-10, 10, -10, 10, 0, 10⟩ ⟨-5, 5, -5, 5, 0, 5⟩).2

/-- C1 counterexample: with concrete body, keycap and border boxes and the
default single-key position, the displayed legend's lowest world point sits
strictly below the border's lowest world point (half the legend depth lower),
so legend-base-Y ≠ border-base-Y; and with a keycap geometry whose minZ is 1,
the border's lowest world point (14) also differs from the keycap's physical
top Y (15), so border-base-Y ≠ keycap-top-Y either. -/
theorem stacking_invariant_counterexample :
    ((labelWorldBox ⟨-10, 10, -10, 10, 0, 10⟩ ⟨-5, 5, -5, 5, 0, 5⟩ ⟨9/2, 0, 0⟩
        0 1 0 1 (87/10)).minY
      ≠ (borderWorldBox ⟨-10, 10, -10, 10, 0, 10⟩ ⟨-5, 5, -5, 5, 0, 5⟩
          ⟨-6, 6, -6, 6, 0, 1⟩ ⟨9/2, 0, 0⟩).minY)
  ∧ ((borderWorldBox ⟨-10, 10, -10, 10, 0, 10⟩ ⟨-5, 5, -5, 5, 1, 6⟩
          ⟨-6, 6, -6, 6, 0, 1⟩ ⟨9/2, 0, 0⟩).minY
      ≠ (keycapWorldBox ⟨-10, 10, -10, 10, 0, 10⟩ ⟨-5, 5, -5, 5, 1, 6⟩
          ⟨9/2, 0, 0⟩).maxY) := by
  constructor
  · rw [labelWorldBox_minY _ _ _ 0 1 0 1 (87/10) (by norm_num),
      borderWorldBox_minY _ _ _ _ (by norm_num)]
    norm_num [LEGEND_DEPTH_MM]
  · rw [borderWorldBox_minY _ _ _ _ (by norm_num),
      keycapWorldBox_maxY _ _ _ (by norm_num)]
    have h1 : (⟨-5, 5, -5, 5, 1, 6⟩ : BBox).minZ = 1 := rfl
    rw [h1]
    intro h
    linarith

/-- C1 amended: for every key, the border's lowest world point and the legend
reference plane sit at the closures' `keycapTopY`, which is the keycap's
physical world top minus the keycap geometry's minZ (they coincide with the
physical top only when that minZ is 0); the displayed text legend — whose
geometry is recentered at its bounding-box centroid before its position is
set to that plane — has its lowest point a further half legend depth (0.6 mm)
below the border base; the keycap's physical top exceeds its physical bottom
whenever the keycap mesh has positive height, and the physical bottom is
body-top-Y + the user vertical offset, which stays above body-top-Y − ε for
nonnegative offsets. -/
theorem stacking_invariant_amended (clickerBox keycapBox borderBox : BBox)
    (gMinX gMaxX gMinY gMaxY textSizeMm eps : ℚ) (p : Vec3)
    (hkz : keycapBox.minZ < keycapBox.maxZ)
    (hbz : borderBox.minZ ≤ borderBox.maxZ)
    (hy : 0 ≤ p.y) (hs : 0 < textSizeMm) (he : 0 < eps) :
    (borderWorldBox clickerBox keycapBox borderBox p).minY
        = (keycapWorldBox clickerBox keycapBox p).maxY - keycapBox.minZ
  ∧ (labelWorldBox clickerBox keycapBox p gMinX gMaxX gMinY gMaxY textSizeMm).minY
        = (keycapWorldBox clickerBox keycapBox p).maxY - keycapBox.minZ
            - LEGEND_DEPTH_MM / 2
  ∧ (keycapWorldBox clickerBox keycapBox p).minY
        < (keycapWorldBox clickerBox keycapBox p).maxY
  ∧ clickerTopYOf clickerBox - eps < (keycapWorldBox clickerBox keycapBox p).minY := by
  refine ⟨?_, ?_, ?_, ?_⟩
  · rw [borderWorldBox_minY clickerBox keycapBox borderBox p hbz,
      keycapWorldBox_maxY clickerBox keycapBox p (le_of_lt hkz)]
    ring
  · rw [labelWorldBox_minY clickerBox keycapBox p gMinX gMaxX gMinY gMaxY textSizeMm hs,
      keycapWorldBox_maxY clickerBox keycapBox p (le_of_lt hkz)]
    ring
  · rw [keycapWorldBox_minY clickerBox keycapBox p (le_of_lt hkz),
      keycapWorldBox_maxY clickerBox keycapBox p (le_of_lt hkz)]
    unfold keycapTopYOf keycapBottomYOf keycapOffsetOf
    simp only
    linarith
  · rw [keycapWorldBox_minY clickerBox keycapBox p (le_of_lt hkz)]
    linarith

/-- Sizes scale multiplicatively under nonnegative scale factors on a
well-formed axis (shared helper). -/
theorem scale_sizeX_nonneg (b : BBox) (sx sy sz : ℚ) (h : b.minX ≤ b.maxX) (hs : 0 ≤ sx) :
    (b.scale sx sy sz).sizeX = sx * b.sizeX := by
  have h1 : sx * b.minX ≤ sx * b.maxX := mul_le_mul_of_nonneg_left h hs
  simp only [BBox.scale, BBox.sizeX, min_eq_left h1, max_eq_right h1]
  ring

theorem scale_sizeY_nonneg (b : BBox) (sx sy sz : ℚ) (h : b.minY ≤ b.maxY) (hs : 0 ≤ sy) :
    (b.scale sx sy sz).sizeY = sy * b.sizeY := by
  have h1 : sy * b.minY ≤ sy * b.maxY := mul_le_mul_of_nonneg_left h hs
  simp only [BBox.scale, BBox.sizeY, min_eq_left h1, max_eq_right h1]
  ring

theorem scale_sizeZ_nonneg (b : BBox) (sx sy sz : ℚ) (h : b.minZ ≤ b.maxZ) (hs : 0 ≤ sz) :
    (b.scale sx sy sz).sizeZ = sz * b.sizeZ := by
  have h1 : sz * b.minZ ≤ sz * b.maxZ := mul_le_mul_of_nonneg_left h hs
  simp only [BBox.scale, BBox.sizeZ, min_eq_left h1, max_eq_right h1]
  ring

/-- Recentering preserves the three sizes (shared helper). -/
theorem recenter_sizes (b : BBox) :
    (b.recenter).sizeX = b.sizeX ∧ (b.recenter).sizeY = b.sizeY
  ∧ (b.recenter).sizeZ = b.sizeZ := by
  refine ⟨?_, ?_, ?_⟩ <;>
    simp only [BBox.recenter, BBox.translate, BBox.center, BBox.sizeX, BBox.sizeY, BBox.sizeZ] <;>
    ring

/-- Recentering preserves well-formedness per axis (shared helper). -/
theorem recenter_wf (b : BBox) (hx : b.minX ≤ b.maxX) (hy : b.minY ≤ b.maxY)
    (hz : b.minZ ≤ b.maxZ) :
    (b.recenter).minX ≤ (b.recenter).maxX ∧ (b.recenter).minY ≤ (b.recenter).maxY
  ∧ (b.recenter).minZ ≤ (b.recenter).maxZ := by
  refine ⟨?_, ?_, ?_⟩ <;>
    simp only [BBox.recenter, BBox.translate, BBox.center] <;> linarith

/-- A scaled box is always well-formed per axis (shared helper). -/
theorem scale_wf (b : BBox) (sx sy sz : ℚ) :
    (b.scale sx sy sz).minX ≤ (b.scale sx sy sz).maxX
  ∧ (b.scale sx sy sz).minY ≤ (b.scale sx sy sz).maxY
  ∧ (b.scale sx sy sz).minZ ≤ (b.scale sx sy sz).maxZ := by
  refine ⟨min_le_max, min_le_max, min_le_max⟩

/-- The sizes of the normalized SVG geometry, for any input box whose sizes
are positive and whose z-rescale condition holds (shared helper):
the in-plane sizes end up divided by the maximum of all three sizes (the
0.001 guard being inactive), and the depth ends up exactly 1. -/
theorem svgNormalize_sizes (b : BBox)
    (hwx : b.minX ≤ b.maxX) (hwy : b.minY ≤ b.maxY) (hwz : b.minZ ≤ b.maxZ)
    (hz : 0 < b.sizeZ)
    (h1000 : 1/1000 ≤ max (max b.sizeX b.sizeY) b.sizeZ)
    (hzc : 1/1000 < b.sizeZ / max (max b.sizeX b.sizeY) b.sizeZ) :
    (svgNormalize b).sizeX = b.sizeX / max (max b.sizeX b.sizeY) b.sizeZ
  ∧ (svgNormalize b).sizeY = b.sizeY / max (max b.sizeX b.sizeY) b.sizeZ
  ∧ (svgNormalize b).sizeZ = 1 := by
  have hM3pos : 0 < max (max b.sizeX b.sizeY) b.sizeZ :=
    lt_of_lt_of_le hz (le_max_right _ _)
  obtain ⟨hrX, hrY, hrZ⟩ := recenter_sizes b
  obtain ⟨hwX, hwY, hwZ⟩ := recenter_wf b hwx hwy hwz
  have hsnn : (0 : ℚ) ≤ 1 / max (max b.sizeX b.sizeY) b.sizeZ := by positivity
  simp only [svgNormalize, hrX, hrY, hrZ]
  rw [max_eq_left h1000]
  rw [scale_sizeZ_nonneg _ _ _ _ hwZ hsnn, hrZ]
  have hzq : 1 / max (max b.sizeX b.sizeY) b.sizeZ * b.sizeZ
      = b.sizeZ / max (max b.sizeX b.sizeY) b.sizeZ := by ring
  rw [hzq, if_pos hzc]
  obtain ⟨hw2X, hw2Y, hw2Z⟩ :=
    scale_wf b.recenter (1 / max (max b.sizeX b.sizeY) b.sizeZ)
      (1 / max (max b.sizeX b.sizeY) b.sizeZ) (1 / max (max b.sizeX b.sizeY) b.sizeZ)
  have hz2 : (0 : ℚ) < b.sizeZ / max (max b.sizeX b.sizeY) b.sizeZ := by positivity
  refine ⟨?_, ?_, ?_⟩
  · rw [scale_sizeX_nonneg _ _ _ _ hw2X (by norm_num),
      scale_sizeX_nonneg _ _ _ _ hwX hsnn, hrX]
    ring
  · rw [scale_sizeY_nonneg _ _ _ _ hw2Y (by norm_num),
      scale_sizeY_nonneg _ _ _ _ hwY hsnn, hrY]
    ring
  · rw [scale_sizeZ_nonneg _ _ _ _ hw2Z (by positivity),
      scale_sizeZ_nonneg _ _ _ _ hwZ hsnn, hrZ, hzq]
    field_simp

/-- C2 counterexample: a non-degenerate 1×1 icon outline (extruded to depth 2)
normalizes to in-plane maximum 1/2, not 1 — the first scaling pass divides by
the depth, which dominates the in-plane extent. -/
theorem svg_normalization_counterexample :
    inPlaneMax (svgNormalize (svgExtrudeBox 0 1 0 1)) ≠ 1 := by
  have h := svgNormalize_sizes (svgExtrudeBox 0 1 0 1)
    (by norm_num [svgExtrudeBox]) (by norm_num [svgExtrudeBox])
    (by norm_num [svgExtrudeBox, SVG_EXTRUDE_DEPTH])
    (by norm_num [svgExtrudeBox, BBox.sizeZ, SVG_EXTRUDE_DEPTH])
    (by norm_num [svgExtrudeBox, BBox.sizeX, BBox.sizeY, BBox.sizeZ, SVG_EXTRUDE_DEPTH])
    (by norm_num [svgExtrudeBox, BBox.sizeX, BBox.sizeY, BBox.sizeZ, SVG_EXTRUDE_DEPTH])
  obtain ⟨h1, h2, _⟩ := h
  unfold inPlaneMax
  rw [h1, h2]
  norm_num [svgExtrudeBox, BBox.sizeX, BBox.sizeY, BBox.sizeZ, SVG_EXTRUDE_DEPTH]

/-- C2 amended: for every non-degenerate icon outline (with in-plane extent
below the 2000-unit guard), the synthesized geometry's extrusion-axis depth is
exactly 1, but its larger in-plane dimension is
`inPlane / max(inPlane, SVG_EXTRUDE_DEPTH)`, which equals 1 if and only if the
outline's in-plane extent is at least the extrusion depth 2 — the first
(in-plane) scaling pass is coupled to the depth, contrary to the claimed
independence. -/
theorem svg_normalization_amended (x0 x1 y0 y1 : ℚ)
    (hx : x0 < x1) (hy : y0 < y1)
    (hbound : max (x1 - x0) (y1 - y0) < 2000) :
    (svgNormalize (svgExtrudeBox x0 x1 y0 y1)).sizeZ = 1
  ∧ inPlaneMax (svgNormalize (svgExtrudeBox x0 x1 y0 y1))
      = max (x1 - x0) (y1 - y0) / max (max (x1 - x0) (y1 - y0)) SVG_EXTRUDE_DEPTH
  ∧ (inPlaneMax (svgNormalize (svgExtrudeBox x0 x1 y0 y1)) = 1
      ↔ SVG_EXTRUDE_DEPTH ≤ max (x1 - x0) (y1 - y0)) := by
  have ha : 0 < x1 - x0 := sub_pos.mpr hx
  have hbq : 0 < y1 - y0 := sub_pos.mpr hy
  have hm0 : 0 < max (x1 - x0) (y1 - y0) := lt_of_lt_of_le ha (le_max_left _ _)
  have hsX : (svgExtrudeBox x0 x1 y0 y1).sizeX = x1 - x0 := rfl
  have hsY : (svgExtrudeBox x0 x1 y0 y1).sizeY = y1 - y0 := rfl
  have hsZ : (svgExtrudeBox x0 x1 y0 y1).sizeZ = 2 := by
    norm_num [svgExtrudeBox, BBox.sizeZ, SVG_EXTRUDE_DEPTH]
  have hM3 : max (max (svgExtrudeBox x0 x1 y0 y1).sizeX (svgExtrudeBox x0 x1 y0 y1).sizeY)
      (svgExtrudeBox x0 x1 y0 y1).sizeZ = max (max (x1 - x0) (y1 - y0)) 2 := by
    rw [hsX, hsY, hsZ]
  have hM3pos : (0 : ℚ) < max (max (x1 - x0) (y1 - y0)) 2 :=
    lt_of_lt_of_le (by norm_num) (le_max_right _ _)
  have hM3lt : max (max (x1 - x0) (y1 - y0)) 2 < 2000 := max_lt hbound (by norm_num)
  have h := svgNormalize_sizes (svgExtrudeBox x0 x1 y0 y1)
    (le_of_lt hx) (le_of_lt hy)
    (by norm_num [svgExtrudeBox, SVG_EXTRUDE_DEPTH])
    (by rw [hsZ]; norm_num)
    (by rw [hM3]; exact le_trans (by norm_num) (le_max_right _ _))
    (by
      rw [hM3, hsZ]
      rw [div_lt_div_iff₀ (by norm_num) hM3pos]
      linarith)
  obtain ⟨h1, h2, h3⟩ := h
  rw [hM3] at h1 h2
  refine ⟨h3, ?_, ?_⟩
  · unfold inPlaneMax
    rw [h1, h2, hsX, hsY, max_div_div_right (le_of_lt hM3pos)]
    rw [show SVG_EXTRUDE_DEPTH = (2 : ℚ) from rfl]
  · unfold inPlaneMax
    rw [h1, h2, hsX, hsY, max_div_div_right (le_of_lt hM3pos)]
    rw [show SVG_EXTRUDE_DEPTH = (2 : ℚ) from rfl]
    constructor
    · intro h4
      by_contra h5
      push_neg at h5
      rw [max_eq_right (le_of_lt h5)] at h4
      rw [div_eq_one_iff_eq (by norm_num)] at h4
      linarith
    · intro h4
      rw [max_eq_left h4]
      exact div_self (ne_of_gt hm0)

/-- Witness for C2's amended theorem: a 24×24 outline (a typical icon
viewBox) normalizes to depth 1 and in-plane maximum 24 / max(24, 2) = 1. -/
theorem svg_normalization_amended_witness :
    (svgNormalize (svgExtrudeBox 0 24 0 24)).sizeZ = 1
  ∧ inPlaneMax (svgNormalize (svgExtrudeBox 0 24 0 24))
      = max (24 - 0) (24 - 0) / max (max (24 - 0) (24 - 0)) SVG_EXTRUDE_DEPTH
  ∧ (inPlaneMax (svgNormalize (svgExtrudeBox 0 24 0 24)) = 1
      ↔ SVG_EXTRUDE_DEPTH ≤ max (24 - 0) (24 - 0)) :=
  svg_normalization_amended 0 24 0 24 (by norm_num) (by norm_num) (by norm_num)

/-- The skip-or-union traversal of `getModelBox` equals the fold over the
filtered mesh list (shared helper). -/
theorem modelBoxFold_eq_filter (ms : List MeshEntry) (acc : Option BBox) :
    modelBoxFold ms acc
      = (specIncludedMeshes ms).foldl
          (fun acc m =>
            match acc with
            | none => some (applyMatBBox m.world m.geomBox)
            | some b => some (b.union (applyMatBBox m.world m.geomBox)))
          acc := by
  induction ms generalizing acc with
  | nil => rfl
  | cons m rest ih =>
    unfold specIncludedMeshes at ih ⊢
    by_cases h : MAX_MESH_SIZE < m.geomBox.maxDim
    · have h2 : ¬ m.geomBox.maxDim ≤ MAX_MESH_SIZE := not_le.mpr h
      rw [List.filter_cons_of_neg (by simpa using h2)]
      unfold modelBoxFold
      rw [if_pos h]
      exact ih acc
    · have h2 : m.geomBox.maxDim ≤ MAX_MESH_SIZE := not_lt.mp h
      rw [List.filter_cons_of_pos (by simpa using h2)]
      unfold modelBoxFold
      rw [if_neg h]
      cases acc with
      | none => exact ih _
      | some b => exact ih _

/-- When some included mesh gives the union box a nonzero maximum dimension,
`getModelBox` reports exactly the spec-side maximum dimension (shared
helper). -/
theorem getModelBox_maxDimension (ms : List MeshEntry) (h : specMaxDimension ms ≠ 0) :
    (getModelBox ms).maxDimension = specMaxDimension ms := by
  unfold specMaxDimension specUnionBox at h ⊢
  unfold getModelBox
  rw [modelBoxFold_eq_filter]
  cases hcase : (specIncludedMeshes ms).foldl
      (fun acc m =>
        match acc with
        | none => some (applyMatBBox m.world m.geomBox)
        | some b => some (b.union (applyMatBBox m.world m.geomBox)))
      none with
  | none =>
    rw [hcase] at h
    simp at h
  | some b =>
    rw [hcase] at h
    simp only
    rw [if_neg]
    · rfl
    · simpa [BBox.maxDim] using h

/-- C8: for any scene whose included meshes (exactly those with largest
bounding-box dimension at most the fixed threshold 150) have a union bounding
box of nonzero largest dimension, the snapshot camera distance equals
(maxDimension / 2) / tan(fov/2) × 1.4, and any mesh whose largest dimension
exceeds the threshold is excluded from (does not change) the framing
computation. -/
theorem auto_framing_distance (meshes : List MeshEntry) (r : RendererSt)
    (background : Option String) (tanHalfFov : ℚ)
    (h : specMaxDimension meshes ≠ 0) :
    ((takeSnapshot ⟨some r, some ⟨meshes, background⟩, some ()⟩ tanHalfFov).1).map
        SnapshotFile.dist
      = some (specMaxDimension meshes / 2 / tanHalfFov * (7/5))
  ∧ (∀ m : MeshEntry, MAX_MESH_SIZE < m.geomBox.maxDim →
      specMaxDimension (m :: meshes) = specMaxDimension meshes) := by
  constructor
  · show some (distanceToFit (getModelBox meshes).maxDimension tanHalfFov (7/5)) = _
    rw [getModelBox_maxDimension meshes h]
    rfl
  · intro m hm
    unfold specMaxDimension specIncludedMeshes
    rw [List.filter_cons_of_neg (by simpa using not_le.mpr hm)]

/-- Witness for C8: one 100×100×100 mesh at the identity world matrix is
framed at distance 100 / 2 / tan(fov/2) × 1.4. -/
theorem auto_framing_distance_witness :
    specMaxDimension [⟨⟨0, 100, 0, 100, 0, 100⟩, idMat⟩] ≠ 0
  ∧ ((takeSnapshot ⟨some ⟨"#ffffff", 1, none⟩,
        some ⟨[⟨⟨0, 100, 0, 100, 0, 100⟩, idMat⟩], none⟩, some ()⟩ 1).1).map
        SnapshotFile.dist
      = some (specMaxDimension [⟨⟨0, 100, 0, 100, 0, 100⟩, idMat⟩] / 2 / 1 * (7/5)) := by
  have hne : specMaxDimension [⟨⟨0, 100, 0, 100, 0, 100⟩, idMat⟩] ≠ 0 := by
    norm_num [specMaxDimension, specUnionBox, specIncludedMeshes, List.filter,
      applyMatBBox, BBox.corners, applyMat, idMat, BBox.expandByPoint, BBox.union,
      BBox.ofPoint, BBox.maxDim, BBox.sizeX, BBox.sizeY, BBox.sizeZ, MAX_MESH_SIZE,
      min_def, max_def]
  exact ⟨hne,
    (auto_framing_distance [⟨⟨0, 100, 0, 100, 0, 100⟩, idMat⟩] ⟨"#ffffff", 1, none⟩
      none 1 hne).1⟩

/-- Witness for C1's amended theorem at concrete boxes with a minZ = 1 keycap
geometry: border base at the physical keycap top 15 minus 1, legend lowest
point a further 0.6 below, keycap physically spanning 10 to 15 above body
top 10. -/
theorem stacking_invariant_amended_witness :
    (borderWorldBox ⟨-10, 10, -10, 10, 0, 10⟩ ⟨-5, 5, -5, 5, 1, 6⟩
        ⟨-6, 6, -6, 6, 0, 1⟩ ⟨9/2, 0, 0⟩).minY
      = (keycapWorldBox ⟨-10, 10, -10, 10, 0, 10⟩ ⟨-5, 5, -5, 5, 1, 6⟩
          ⟨9/2, 0, 0⟩).maxY - (⟨-5, 5, -5, 5, 1, 6⟩ : BBox).minZ
  ∧ (labelWorldBox ⟨-10, 10, -10, 10, 0, 10⟩ ⟨-5, 5, -5, 5, 1, 6⟩ ⟨9/2, 0, 0⟩
      0 1 0 1 (87/10)).minY
      = (keycapWorldBox ⟨-10, 10, -10, 10, 0, 10⟩ ⟨-5, 5, -5, 5, 1, 6⟩
          ⟨9/2, 0, 0⟩).maxY - (⟨-5, 5, -5, 5, 1, 6⟩ : BBox).minZ
          - LEGEND_DEPTH_MM / 2
  ∧ (keycapWorldBox ⟨-10, 10, -10, 10, 0, 10⟩ ⟨-5, 5, -5, 5, 1, 6⟩
        ⟨9/2, 0, 0⟩).minY
      < (keycapWorldBox ⟨-10, 10, -10, 10, 0, 10⟩ ⟨-5, 5, -5, 5, 1, 6⟩
          ⟨9/2, 0, 0⟩).maxY
  ∧ clickerTopYOf ⟨-10, 10, -10, 10, 0, 10⟩ - 1
      < (keycapWorldBox ⟨-10, 10, -10, 10, 0, 10⟩ ⟨-5, 5, -5, 5, 1, 6⟩
          ⟨9/2, 0, 0⟩).minY :=
  stacking_invariant_amended ⟨-10, 10, -10, 10, 0, 10⟩ ⟨-5, 5, -5, 5, 1, 6⟩
    ⟨-6, 6, -6, 6, 0, 1⟩ 0 1 0 1 (87/10) 1 ⟨9/2, 0, 0⟩
    (by norm_num) (by norm_num) (by norm_num) (by norm_num) (by norm_num)

end Clicker
